import Mathlib

/-!
Shallow embedding of `pkg/ans/ans.go` (SAP Alert Notification Service client)
and proofs about its behaviour.

Modelling conventions:
* JSON values are the inductive `JVal`; JSON numbers are modelled as integers,
  which covers every number this package produces (`eventTimestamp : int64`,
  `priority : int`).
* A JSON *text* is modelled as `Option JVal` (resp. `Option EventPatch` for a
  partial event): `none` stands for a string that Go's JSON decoder rejects.
* Go's `map[string]interface{}` is modelled as an association list
  `List (String × JVal)`; a `nil` map and an empty map are both `[]`
  (they are indistinguishable to `json.Marshal` with `omitempty` and to
  `json.Unmarshal`).
* External collaborators of `ANS.Send` (the xsuaa auth-header provider, the
  HTTP transport, the response-body reader) are oracles collected in
  `SendWorld`; `ANS.Send` consumes them in exactly the order the Go code does.
-/

/-- JSON values. Numbers are modelled as integers (see the file comment). -/
inductive JVal where
  | null
  | bool (b : Bool)
  | num (n : Int)
  | str (s : String)
  | arr (elems : List JVal)
  | obj (fields : List (String × JVal))

mutual

def JVal.decEq : (a b : JVal) → Decidable (a = b)
  | .null, .null => isTrue rfl
  | .bool a, .bool b =>
    if h : a = b then isTrue (by rw [h]) else isFalse (by intro hc; cases hc; exact h rfl)
  | .num a, .num b =>
    if h : a = b then isTrue (by rw [h]) else isFalse (by intro hc; cases hc; exact h rfl)
  | .str a, .str b =>
    if h : a = b then isTrue (by rw [h]) else isFalse (by intro hc; cases hc; exact h rfl)
  | .arr xs, .arr ys =>
    match JVal.decEqList xs ys with
    | isTrue h => isTrue (by rw [h])
    | isFalse h => isFalse (by intro hc; cases hc; exact h rfl)
  | .obj xs, .obj ys =>
    match JVal.decEqFields xs ys with
    | isTrue h => isTrue (by rw [h])
    | isFalse h => isFalse (by intro hc; cases hc; exact h rfl)
  | .null, .bool _ => isFalse (by intro h; cases h)
  | .null, .num _ => isFalse (by intro h; cases h)
  | .null, .str _ => isFalse (by intro h; cases h)
  | .null, .arr _ => isFalse (by intro h; cases h)
  | .null, .obj _ => isFalse (by intro h; cases h)
  | .bool _, .null => isFalse (by intro h; cases h)
  | .bool _, .num _ => isFalse (by intro h; cases h)
  | .bool _, .str _ => isFalse (by intro h; cases h)
  | .bool _, .arr _ => isFalse (by intro h; cases h)
  | .bool _, .obj _ => isFalse (by intro h; cases h)
  | .num _, .null => isFalse (by intro h; cases h)
  | .num _, .bool _ => isFalse (by intro h; cases h)
  | .num _, .str _ => isFalse (by intro h; cases h)
  | .num _, .arr _ => isFalse (by intro h; cases h)
  | .num _, .obj _ => isFalse (by intro h; cases h)
  | .str _, .null => isFalse (by intro h; cases h)
  | .str _, .bool _ => isFalse (by intro h; cases h)
  | .str _, .num _ => isFalse (by intro h; cases h)
  | .str _, .arr _ => isFalse (by intro h; cases h)
  | .str _, .obj _ => isFalse (by intro h; cases h)
  | .arr _, .null => isFalse (by intro h; cases h)
  | .arr _, .bool _ => isFalse (by intro h; cases h)
  | .arr _, .num _ => isFalse (by intro h; cases h)
  | .arr _, .str _ => isFalse (by intro h; cases h)
  | .arr _, .obj _ => isFalse (by intro h; cases h)
  | .obj _, .null => isFalse (by intro h; cases h)
  | .obj _, .bool _ => isFalse (by intro h; cases h)
  | .obj _, .num _ => isFalse (by intro h; cases h)
  | .obj _, .str _ => isFalse (by intro h; cases h)
  | .obj _, .arr _ => isFalse (by intro h; cases h)

def JVal.decEqList : (a b : List JVal) → Decidable (a = b)
  | [], [] => isTrue rfl
  | [], _ :: _ => isFalse (by intro h; cases h)
  | _ :: _, [] => isFalse (by intro h; cases h)
  | x :: xs, y :: ys =>
    match JVal.decEq x y, JVal.decEqList xs ys with
    | isTrue h1, isTrue h2 => isTrue (by rw [h1, h2])
    | isFalse h1, _ => isFalse (by intro hc; cases hc; exact h1 rfl)
    | _, isFalse h2 => isFalse (by intro hc; cases hc; exact h2 rfl)

def JVal.decEqFields : (a b : List (String × JVal)) → Decidable (a = b)
  | [], [] => isTrue rfl
  | [], _ :: _ => isFalse (by intro h; cases h)
  | _ :: _, [] => isFalse (by intro h; cases h)
  | (k1, v1) :: xs, (k2, v2) :: ys =>
    if h0 : k1 = k2 then
      match JVal.decEq v1 v2, JVal.decEqFields xs ys with
      | isTrue h1, isTrue h2 => isTrue (by rw [h0, h1, h2])
      | isFalse h1, _ => isFalse (by intro hc; cases hc; exact h1 rfl)
      | _, isFalse h2 => isFalse (by intro hc; cases hc; exact h2 rfl)
    else isFalse (by intro hc; cases hc; exact h0 rfl)

end

instance : DecidableEq JVal := JVal.decEq

/-- The field list of a JSON object (`[]` for every non-object). -/
def JVal.objFields : JVal → List (String × JVal)
  | .obj fields => fields
  | _ => []

/-- `containsStr s sub` says `sub` occurs as a contiguous substring of `s`. -/
def containsStr (s sub : String) : Prop :=
  ∃ a b : List Char, s.data = a ++ (sub.data ++ b)

theorem containsStr_self (s : String) : containsStr s s :=
  ⟨[], [], by simp⟩

theorem containsStr_append_left {s sub : String} (t : String) (h : containsStr s sub) :
    containsStr (s ++ t) sub := by
  obtain ⟨a, b, hab⟩ := h
  exact ⟨a, b ++ t.data, by simp [String.data_append, hab]⟩

theorem containsStr_append_right {t sub : String} (s : String) (h : containsStr t sub) :
    containsStr (s ++ t) sub := by
  obtain ⟨a, b, hab⟩ := h
  exact ⟨s.data ++ a, b, by simp [String.data_append, hab]⟩

/- Constants of the package (the `const` block at the top of ans.go). -/

def authHeaderKey : String := "Authorization"

def infoSeverity : String := "INFO"

def noticeSeverity : String := "NOTICE"

def warningSeverity : String := "WARNING"

def errorSeverity : String := "ERROR"

def fatalSeverity : String := "FATAL"

def exceptionCategory : String := "EXCEPTION"

def alertCategory : String := "ALERT"

def notificationCategory : String := "NOTIFICATION"

/- Log levels of github.com/sirupsen/logrus: `Level` is a uint32 and the named
constants are PanicLevel = 0, FatalLevel, ErrorLevel, WarnLevel, InfoLevel,
DebugLevel, TraceLevel = 6. We model `Level` as `Nat` (the mapper below does
no arithmetic, so the uint32 bound is irrelevant to its behaviour). -/

def logrusPanicLevel : Nat := 0

def logrusFatalLevel : Nat := 1

def logrusErrorLevel : Nat := 2

def logrusWarnLevel : Nat := 3

def logrusInfoLevel : Nat := 4

def logrusDebugLevel : Nat := 5

def logrusTraceLevel : Nat := 6

/-- `TranslateLogrusLogLevel` from ans.go: severity and category start at the
defaults `(INFO, NOTIFICATION)` and the `switch` overrides them for the six
explicitly listed levels. The sequential `if` chain mirrors the Go `switch`
with its single-value cases in source order. -/
def TranslateLogrusLogLevel (level : Nat) : String × String :=
  if level = logrusInfoLevel then (infoSeverity, notificationCategory)
  else if level = logrusDebugLevel then (infoSeverity, notificationCategory)
  else if level = logrusWarnLevel then (warningSeverity, alertCategory)
  else if level = logrusErrorLevel then (errorSeverity, exceptionCategory)
  else if level = logrusFatalLevel then (fatalSeverity, exceptionCategory)
  else if level = logrusPanicLevel then (fatalSeverity, exceptionCategory)
  else (infoSeverity, notificationCategory)

/-- The explicit case arms of the `switch` in `TranslateLogrusLogLevel`, in
source order: the level matched by the case and the pair it assigns. -/
def translateExplicitCases : List (Nat × (String × String)) :=
  [(logrusInfoLevel, (infoSeverity, notificationCategory)),
   (logrusDebugLevel, (infoSeverity, notificationCategory)),
   (logrusWarnLevel, (warningSeverity, alertCategory)),
   (logrusErrorLevel, (errorSeverity, exceptionCategory)),
   (logrusFatalLevel, (fatalSeverity, exceptionCategory)),
   (logrusPanicLevel, (fatalSeverity, exceptionCategory))]

/-- The `if` chain agrees with first-match lookup in the case list, with the
default pair for levels matched by no case. -/
theorem translateLogrusLogLevel_eq_lookup (level : Nat) :
    TranslateLogrusLogLevel level =
      ((translateExplicitCases.lookup level).getD (infoSeverity, notificationCategory)) := by
  unfold TranslateLogrusLogLevel translateExplicitCases
  unfold logrusPanicLevel logrusFatalLevel logrusErrorLevel logrusWarnLevel
    logrusInfoLevel logrusDebugLevel
  rcases level with _ | _ | _ | _ | _ | _ | level <;> simp [List.lookup]

/-- C3: `TranslateLogrusLogLevel` is total and pure (a plain Lean function
`Nat → String × String`); it maps InfoLevel and DebugLevel to
(INFO, NOTIFICATION), WarnLevel to (WARNING, ALERT), ErrorLevel to
(ERROR, EXCEPTION), FatalLevel and PanicLevel to (FATAL, EXCEPTION), and
every other level to the default (INFO, NOTIFICATION). -/
theorem translateLogrusLogLevel_mapping :
    TranslateLogrusLogLevel logrusInfoLevel = (infoSeverity, notificationCategory) ∧
    TranslateLogrusLogLevel logrusDebugLevel = (infoSeverity, notificationCategory) ∧
    TranslateLogrusLogLevel logrusWarnLevel = (warningSeverity, alertCategory) ∧
    TranslateLogrusLogLevel logrusErrorLevel = (errorSeverity, exceptionCategory) ∧
    TranslateLogrusLogLevel logrusFatalLevel = (fatalSeverity, exceptionCategory) ∧
    TranslateLogrusLogLevel logrusPanicLevel = (fatalSeverity, exceptionCategory) ∧
    ∀ level : Nat,
      level ∉ [logrusInfoLevel, logrusDebugLevel, logrusWarnLevel, logrusErrorLevel,
        logrusFatalLevel, logrusPanicLevel] →
      TranslateLogrusLogLevel level = (infoSeverity, notificationCategory) := by
  refine ⟨by decide, by decide, by decide, by decide, by decide, by decide, ?_⟩
  intro level h
  simp only [List.mem_cons, List.not_mem_nil, or_false] at h
  push_neg at h
  obtain ⟨h4, h5, h3, h2, h1, h0⟩ := h
  simp [TranslateLogrusLogLevel, h0, h1, h2, h3, h4, h5]

/-- Witness for C3: the TraceLevel (6) is not among the explicit cases and gets
the default mapping. -/
theorem translateLogrusLogLevel_mapping_witness :
    TranslateLogrusLogLevel logrusTraceLevel = (infoSeverity, notificationCategory) :=
  translateLogrusLogLevel_mapping.2.2.2.2.2.2 logrusTraceLevel (by decide)

/-- C10: for every level, `TranslateLogrusLogLevel` never yields severity
NOTICE; its result is always one of the four pairs (INFO, NOTIFICATION),
(WARNING, ALERT), (ERROR, EXCEPTION), (FATAL, EXCEPTION), even though
`noticeSeverity` is declared in the package's severity constants. -/
theorem translateLogrusLogLevel_never_notice (level : Nat) :
    (TranslateLogrusLogLevel level).1 ≠ noticeSeverity ∧
    (TranslateLogrusLogLevel level = (infoSeverity, notificationCategory) ∨
     TranslateLogrusLogLevel level = (warningSeverity, alertCategory) ∨
     TranslateLogrusLogLevel level = (errorSeverity, exceptionCategory) ∨
     TranslateLogrusLogLevel level = (fatalSeverity, exceptionCategory)) := by
  unfold TranslateLogrusLogLevel
  split_ifs <;> exact ⟨by decide, by simp⟩

/-- C9 counterexample: the claim says exactly two explicit cases map to
(WARNING, ALERT) and exactly three to (FATAL, EXCEPTION); in the code one case
maps to (WARNING, ALERT) and two map to (FATAL, EXCEPTION). -/
theorem translate_case_counts_counterexample :
    ¬ ((translateExplicitCases.filter
          (fun c => c.2 = (warningSeverity, alertCategory))).length = 2 ∧
       (translateExplicitCases.filter
          (fun c => c.2 = (fatalSeverity, exceptionCategory))).length = 3) := by
  decide

/-- C9 (amended): exactly two explicit cases map to (INFO, NOTIFICATION),
identically to the default; exactly one explicit case maps to
(WARNING, ALERT) and, over all levels, WarnLevel is the only level mapped to
it; exactly two explicit cases map to (FATAL, EXCEPTION) and FatalLevel and
PanicLevel are the only levels mapped to it. -/
theorem translate_case_counts :
    (translateExplicitCases.filter
       (fun c => c.2 = (infoSeverity, notificationCategory))).length = 2 ∧
    (translateExplicitCases.filter
       (fun c => c.2 = (warningSeverity, alertCategory))).length = 1 ∧
    (translateExplicitCases.filter
       (fun c => c.2 = (fatalSeverity, exceptionCategory))).length = 2 ∧
    (∀ level : Nat,
      TranslateLogrusLogLevel level = (warningSeverity, alertCategory) ↔
        level = logrusWarnLevel) ∧
    (∀ level : Nat,
      TranslateLogrusLogLevel level = (fatalSeverity, exceptionCategory) ↔
        (level = logrusFatalLevel ∨ level = logrusPanicLevel)) := by
  refine ⟨by decide, by decide, by decide, ?_, ?_⟩ <;>
    intro level <;> unfold TranslateLogrusLogLevel <;> split_ifs <;> simp_all <;> decide

/-- `ServiceKey` from ans.go: the structure of the service key JSON. Its four
fields carry no `omitempty`, so marshalling always emits all four keys. -/
structure ServiceKey where
  Url : String
  ClientId : String
  ClientSecret : String
  OauthUrl : String
deriving DecidableEq

/-- The zero value of `ServiceKey` (what Go allocates before unmarshalling). -/
def zeroServiceKey : ServiceKey := ⟨"", "", "", ""⟩

/-- Go's `json.Marshal` on `ServiceKey`: all four fields, with the struct tags
`url`, `client_id`, `client_secret`, `oauth_url`, in declaration order. -/
def marshalServiceKey (k : ServiceKey) : JVal :=
  .obj [("url", .str k.Url), ("client_id", .str k.ClientId),
        ("client_secret", .str k.ClientSecret), ("oauth_url", .str k.OauthUrl)]

/-- One step of Go's object decoding into a `ServiceKey`: a matching key with a
string value sets the field, a JSON `null` has no effect, a matching key of any
other type is a type error, and unknown keys are ignored. Later duplicate keys
overwrite earlier ones, as in encoding/json. -/
def setServiceKeyField (k : ServiceKey) : String × JVal → Except String ServiceKey
  | ("url", .str s) => .ok { k with Url := s }
  | ("url", .null) => .ok k
  | ("url", _) => .error "json: cannot unmarshal value into url of type string"
  | ("client_id", .str s) => .ok { k with ClientId := s }
  | ("client_id", .null) => .ok k
  | ("client_id", _) => .error "json: cannot unmarshal value into client_id of type string"
  | ("client_secret", .str s) => .ok { k with ClientSecret := s }
  | ("client_secret", .null) => .ok k
  | ("client_secret", _) => .error "json: cannot unmarshal value into client_secret of type string"
  | ("oauth_url", .str s) => .ok { k with OauthUrl := s }
  | ("oauth_url", .null) => .ok k
  | ("oauth_url", _) => .error "json: cannot unmarshal value into oauth_url of type string"
  | (_, _) => .ok k

/-- Go's `json.Unmarshal` of a parsed JSON value into a fresh `ServiceKey`:
an object is decoded field by field, a top-level `null` has no effect (leaving
the zero value), and any other JSON type is a type error. -/
def decodeServiceKey : JVal → Except String ServiceKey
  | .null => .ok zeroServiceKey
  | .obj fields => fields.foldlM setServiceKeyField zeroServiceKey
  | _ => .error "json: cannot unmarshal value into Go value of type ans.ServiceKey"

/-- `UnmarshallServiceKeyJSON` from ans.go. The JSON text is modelled as
`Option JVal`: `none` is a string the JSON parser rejects. On any decoding
error the Go code wraps it with "error unmarshalling ANS serviceKey". -/
def UnmarshallServiceKeyJSON (serviceKeyJSON : Option JVal) : Except String ServiceKey :=
  match serviceKeyJSON with
  | none => .error "error unmarshalling ANS serviceKey: invalid JSON"
  | some v =>
    match decodeServiceKey v with
    | .error e => .error ("error unmarshalling ANS serviceKey: " ++ e)
    | .ok k => .ok k

/-- C6: parsing the JSON serialization of any `ServiceKey` returns it
unchanged (round-trip identity), and parsing malformed JSON yields an error
wrapped with the parse-error context. -/
theorem unmarshallServiceKeyJSON_roundtrip :
    (∀ k : ServiceKey, UnmarshallServiceKeyJSON (some (marshalServiceKey k)) = .ok k) ∧
    UnmarshallServiceKeyJSON none = .error "error unmarshalling ANS serviceKey: invalid JSON" := by
  refine ⟨fun k => ?_, rfl⟩
  cases k
  rfl

/-- `Resource` from ans.go. `Tags` models `map[string]interface{}` as an
association list; `[]` stands for both the nil and the empty map. -/
structure Resource where
  ResourceName : String
  ResourceType : String
  ResourceInstance : String
  Tags : List (String × JVal)
deriving DecidableEq

/-- `Event` from ans.go. `EventTimestamp` is an `int64` and `Priority` an
`int`, both modelled as `Int`; `Resource` is a pointer, modelled as `Option`. -/
structure Event where
  EventType : String
  EventTimestamp : Int
  Severity : String
  Category : String
  Subject : String
  Body : String
  Priority : Int
  Tags : List (String × JVal)
  Resource : Option Resource
deriving DecidableEq

/-- The zero value of `Resource`. -/
def zeroResource : Resource := ⟨"", "", "", []⟩

/-- The zero value of `Event`. -/
def zeroEvent : Event := ⟨"", 0, "", "", "", "", 0, [], none⟩

/-- Go's `json.Marshal` on `Resource`: every field is tagged `omitempty`, so a
field at its zero value (empty string, nil or empty map) is omitted; fields
appear in declaration order. -/
def marshalResource (r : Resource) : JVal :=
  .obj ((if r.ResourceName = "" then [] else [("resourceName", JVal.str r.ResourceName)]) ++
        (if r.ResourceType = "" then [] else [("resourceType", JVal.str r.ResourceType)]) ++
        (if r.ResourceInstance = "" then [] else [("resourceInstance", JVal.str r.ResourceInstance)]) ++
        (if r.Tags = [] then [] else [("tags", JVal.obj r.Tags)]))

/-- Go's `json.Marshal` on `Event`: every field is tagged `omitempty`, so a
field at its zero value (empty string, zero int, nil or empty map, nil
pointer) is omitted; fields appear in declaration order. -/
def marshalEvent (e : Event) : JVal :=
  .obj ((if e.EventType = "" then [] else [("eventType", JVal.str e.EventType)]) ++
        (if e.EventTimestamp = 0 then [] else [("eventTimestamp", JVal.num e.EventTimestamp)]) ++
        (if e.Severity = "" then [] else [("severity", JVal.str e.Severity)]) ++
        (if e.Category = "" then [] else [("category", JVal.str e.Category)]) ++
        (if e.Subject = "" then [] else [("subject", JVal.str e.Subject)]) ++
        (if e.Body = "" then [] else [("body", JVal.str e.Body)]) ++
        (if e.Priority = 0 then [] else [("priority", JVal.num e.Priority)]) ++
        (if e.Tags = [] then [] else [("tags", JVal.obj e.Tags)]) ++
        (match e.Resource with
         | none => []
         | some r => [("resource", marshalResource r)]))

theorem mem_ite_nil {α : Type} (c : Prop) [Decidable c] (l : List α) (a : α) :
    a ∈ (if c then l else []) ↔ c ∧ a ∈ l := by
  split_ifs <;> simp_all

theorem mem_ite_nil_left {α : Type} (c : Prop) [Decidable c] (l : List α) (a : α) :
    a ∈ (if c then [] else l) ↔ ¬ c ∧ a ∈ l := by
  split_ifs <;> simp_all

/-- C8: serialization of `Event` and `Resource` omits every field holding its
type's zero value: the zero `Event` (and zero `Resource`) serializes to the
empty object, no emitted key carries a zero value (empty string, zero number,
null), and each field's key is present exactly when the field is non-zero. -/
theorem marshal_omits_zero_fields :
    marshalEvent zeroEvent = .obj [] ∧
    marshalResource zeroResource = .obj [] ∧
    (∀ e : Event, ∀ kv ∈ (marshalEvent e).objFields,
        kv.2 ≠ .str "" ∧ kv.2 ≠ .num 0 ∧ kv.2 ≠ .null) ∧
    (∀ r : Resource, ∀ kv ∈ (marshalResource r).objFields,
        kv.2 ≠ .str "" ∧ kv.2 ≠ .num 0 ∧ kv.2 ≠ .null) ∧
    (∀ e : Event,
      ("eventType" ∈ (marshalEvent e).objFields.map Prod.fst ↔ e.EventType ≠ "") ∧
      ("eventTimestamp" ∈ (marshalEvent e).objFields.map Prod.fst ↔ e.EventTimestamp ≠ 0) ∧
      ("severity" ∈ (marshalEvent e).objFields.map Prod.fst ↔ e.Severity ≠ "") ∧
      ("category" ∈ (marshalEvent e).objFields.map Prod.fst ↔ e.Category ≠ "") ∧
      ("subject" ∈ (marshalEvent e).objFields.map Prod.fst ↔ e.Subject ≠ "") ∧
      ("body" ∈ (marshalEvent e).objFields.map Prod.fst ↔ e.Body ≠ "") ∧
      ("priority" ∈ (marshalEvent e).objFields.map Prod.fst ↔ e.Priority ≠ 0) ∧
      ("tags" ∈ (marshalEvent e).objFields.map Prod.fst ↔ e.Tags ≠ []) ∧
      ("resource" ∈ (marshalEvent e).objFields.map Prod.fst ↔ e.Resource ≠ none)) ∧
    (∀ r : Resource,
      ("resourceName" ∈ (marshalResource r).objFields.map Prod.fst ↔ r.ResourceName ≠ "") ∧
      ("resourceType" ∈ (marshalResource r).objFields.map Prod.fst ↔ r.ResourceType ≠ "") ∧
      ("resourceInstance" ∈ (marshalResource r).objFields.map Prod.fst ↔ r.ResourceInstance ≠ "") ∧
      ("tags" ∈ (marshalResource r).objFields.map Prod.fst ↔ r.Tags ≠ [])) := by
  refine ⟨rfl, rfl, ?_, ?_, ?_, ?_⟩
  · intro e kv hkv
    rcases hr : e.Resource with _ | r
    · simp only [marshalEvent, JVal.objFields, hr, List.mem_append, mem_ite_nil,
        mem_ite_nil_left, List.mem_singleton, List.not_mem_nil, or_false, or_assoc] at hkv
      rcases hkv with ⟨h, rfl⟩ | ⟨h, rfl⟩ | ⟨h, rfl⟩ | ⟨h, rfl⟩ | ⟨h, rfl⟩ | ⟨h, rfl⟩ | ⟨h, rfl⟩ | ⟨h, rfl⟩ <;>
        simp_all
    · simp only [marshalEvent, JVal.objFields, hr, List.mem_append, mem_ite_nil,
        mem_ite_nil_left, List.mem_singleton, List.not_mem_nil, or_false, or_assoc] at hkv
      rcases hkv with ⟨h, rfl⟩ | ⟨h, rfl⟩ | ⟨h, rfl⟩ | ⟨h, rfl⟩ | ⟨h, rfl⟩ | ⟨h, rfl⟩ | ⟨h, rfl⟩ | ⟨h, rfl⟩ | rfl <;>
        simp_all [marshalResource]
  · intro r kv hkv
    simp only [marshalResource, JVal.objFields, List.mem_append, mem_ite_nil, mem_ite_nil_left,
      List.mem_singleton, List.not_mem_nil, or_false, or_assoc] at hkv
    rcases hkv with ⟨h, rfl⟩ | ⟨h, rfl⟩ | ⟨h, rfl⟩ | ⟨h, rfl⟩ <;> simp_all
  · intro e
    rcases hr : e.Resource with _ | r <;>
      simp [marshalEvent, JVal.objFields, hr, List.mem_append, mem_ite_nil, mem_ite_nil_left]
  · intro r
    simp [marshalResource, JVal.objFields, List.mem_append, mem_ite_nil, mem_ite_nil_left]

/-- Witness for C8: an event whose only set field is `EventType = "x"` emits
that field with a non-zero value. -/
theorem marshal_omits_zero_fields_witness :
    ("eventType", JVal.str "x").2 ≠ JVal.str "" ∧
    ("eventType", JVal.str "x").2 ≠ JVal.num 0 ∧
    ("eventType", JVal.str "x").2 ≠ JVal.null :=
  marshal_omits_zero_fields.2.2.1 { zeroEvent with EventType := "x" }
    ("eventType", JVal.str "x") (by decide)

/-- Indexing a Go `map[string]interface{}` modelled as an association list:
the value stored under `k`, if any. -/
def lookupKey (l : List (String × JVal)) (k : String) : Option JVal :=
  match l with
  | [] => none
  | (k1, v) :: tl => if k = k1 then some v else lookupKey tl k

/-- Storing one JSON object entry into an existing map (one step of Go's
`json.Unmarshal` into a `map[string]interface{}`): the entry is stored,
replacing an existing entry with the same key. -/
def insertPair (l : List (String × JVal)) (kv : String × JVal) : List (String × JVal) :=
  (l.filter (fun p => p.1 ≠ kv.1)) ++ [kv]

/-- Go's `json.Unmarshal` of a JSON object into an existing map: the existing
map is reused, existing entries are kept, and the object's entries are stored
in order (so for a duplicate JSON key the last occurrence wins). -/
def mergeTags (existing incoming : List (String × JVal)) : List (String × JVal) :=
  incoming.foldl insertPair existing

theorem lookupKey_append (l1 l2 : List (String × JVal)) (k : String) :
    lookupKey (l1 ++ l2) k =
      match lookupKey l1 k with
      | some v => some v
      | none => lookupKey l2 k := by
  induction l1 with
  | nil => simp [lookupKey]
  | cons hd tl ih =>
    obtain ⟨k1, v⟩ := hd
    by_cases hk : k = k1 <;> simp [lookupKey, hk, ih]

theorem lookupKey_filter_ne (l : List (String × JVal)) (k a : String) (h : k ≠ a) :
    lookupKey (l.filter (fun p => p.1 ≠ a)) k = lookupKey l k := by
  induction l with
  | nil => rfl
  | cons hd tl ih =>
    obtain ⟨k1, v⟩ := hd
    simp only [ne_eq, decide_not] at ih
    by_cases h1 : k1 = a
    · have hk1 : ¬ k = k1 := by rw [h1]; exact h
      simp [List.filter_cons, h1, lookupKey, hk1, h, ne_eq, ih]
    · by_cases hk : k = k1 <;> simp [List.filter_cons, h1, lookupKey, hk, ne_eq, ih]

theorem lookupKey_filter_self (l : List (String × JVal)) (a : String) :
    lookupKey (l.filter (fun p => p.1 ≠ a)) a = none := by
  induction l with
  | nil => rfl
  | cons hd tl ih =>
    obtain ⟨k1, v⟩ := hd
    simp only [ne_eq, decide_not] at ih
    by_cases h1 : k1 = a
    · simp [List.filter_cons, h1, ne_eq, ih]
    · have h2 : ¬ a = k1 := fun he => h1 he.symm
      simp [List.filter_cons, h1, lookupKey, h2, ne_eq, ih]

theorem lookupKey_not_mem_keys (l : List (String × JVal)) (k : String)
    (h : k ∉ l.map Prod.fst) : lookupKey l k = none := by
  induction l with
  | nil => rfl
  | cons hd tl ih =>
    obtain ⟨k1, v⟩ := hd
    simp only [List.map_cons, List.mem_cons] at h
    push_neg at h
    simp [lookupKey, h.1, ih h.2]

theorem lookupKey_insertPair (l : List (String × JVal)) (kv : String × JVal) (k : String) :
    lookupKey (insertPair l kv) k = if k = kv.1 then some kv.2 else lookupKey l k := by
  by_cases hk : k = kv.1
  · subst hk
    unfold insertPair
    rw [lookupKey_append, lookupKey_filter_self]
    simp [lookupKey]
  · unfold insertPair
    rw [lookupKey_append, lookupKey_filter_ne l k kv.1 hk]
    cases hl : lookupKey l k <;> simp [lookupKey, hk, hl]

theorem lookupKey_mergeTags_none (incoming : List (String × JVal)) (k : String)
    (h : lookupKey incoming k = none) (existing : List (String × JVal)) :
    lookupKey (mergeTags existing incoming) k = lookupKey existing k := by
  induction incoming generalizing existing with
  | nil => rfl
  | cons kv rest ih =>
    obtain ⟨k1, v⟩ := kv
    by_cases hk : k = k1
    · simp [lookupKey, hk] at h
    · simp only [lookupKey, hk, if_false] at h
      have : mergeTags existing ((k1, v) :: rest) = mergeTags (insertPair existing (k1, v)) rest := rfl
      rw [this, ih h, lookupKey_insertPair]
      simp [hk]

theorem lookupKey_mergeTags_some (incoming : List (String × JVal)) (k : String) (v : JVal)
    (hnd : (incoming.map Prod.fst).Nodup) (h : lookupKey incoming k = some v)
    (existing : List (String × JVal)) :
    lookupKey (mergeTags existing incoming) k = some v := by
  induction incoming generalizing existing with
  | nil => simp [lookupKey] at h
  | cons kv rest ih =>
    obtain ⟨k1, v1⟩ := kv
    simp only [List.map_cons, List.nodup_cons] at hnd
    obtain ⟨hk1, hndrest⟩ := hnd
    have hstep : mergeTags existing ((k1, v1) :: rest) = mergeTags (insertPair existing (k1, v1)) rest := rfl
    by_cases hk : k = k1
    · subst hk
      simp only [lookupKey, if_pos rfl] at h
      cases h
      have hrest : lookupKey rest k = none := lookupKey_not_mem_keys rest k hk1
      rw [hstep, lookupKey_mergeTags_none rest k hrest, lookupKey_insertPair]
      simp
    · simp only [lookupKey, hk, if_false] at h
      rw [hstep, ih hndrest h]

/-- A well-formed merge JSON for `Resource`, as Go's decoder sees it: each
field is either absent (`none`) or present with a value of the right type.
A JSON `null` for a scalar field has no effect in Go, identical to absence,
so it is folded into `none`; for the map field `tags` a JSON `null` sets the
map to nil, so presence of `null` (`some none`) is kept distinct. -/
structure ResourcePatch where
  resourceName : Option String
  resourceType : Option String
  resourceInstance : Option String
  tags : Option (Option (List (String × JVal)))

/-- A well-formed merge JSON for `Event`, with the same conventions as
`ResourcePatch`; for the pointer field `resource`, a JSON `null` (`some none`)
sets the pointer to nil. -/
structure EventPatch where
  eventType : Option String
  eventTimestamp : Option Int
  severity : Option String
  category : Option String
  subject : Option String
  body : Option String
  priority : Option Int
  tags : Option (Option (List (String × JVal)))
  resource : Option (Option ResourcePatch)

/-- The merge JSON `{}`: every field absent. -/
def emptyEventPatch : EventPatch := ⟨none, none, none, none, none, none, none, none, none⟩

/-- Go's `json.Unmarshal` of a resource object onto an existing `Resource`:
present scalar fields are overwritten, the `tags` map is merged
entry-by-entry (a `null` resets it), absent fields are untouched. -/
def Resource.mergeWithPatch (r : Resource) (p : ResourcePatch) : Resource :=
  { ResourceName := p.resourceName.getD r.ResourceName
    ResourceType := p.resourceType.getD r.ResourceType
    ResourceInstance := p.resourceInstance.getD r.ResourceInstance
    Tags := match p.tags with
      | none => r.Tags
      | some none => []
      | some (some ts) => mergeTags r.Tags ts }

/-- Go's `json.Unmarshal` of an event object onto an existing `Event`:
present scalar fields are overwritten, the `tags` map is merged
entry-by-entry, and a present `resource` object is merged onto the pointed-to
resource (a fresh zero `Resource` if the pointer was nil); a `null` resets
the map or pointer; absent fields are untouched. -/
def Event.applyPatch (event : Event) (p : EventPatch) : Event :=
  { EventType := p.eventType.getD event.EventType
    EventTimestamp := p.eventTimestamp.getD event.EventTimestamp
    Severity := p.severity.getD event.Severity
    Category := p.category.getD event.Category
    Subject := p.subject.getD event.Subject
    Body := p.body.getD event.Body
    Priority := p.priority.getD event.Priority
    Tags := match p.tags with
      | none => event.Tags
      | some none => []
      | some (some ts) => mergeTags event.Tags ts
    Resource := match p.resource with
      | none => event.Resource
      | some none => none
      | some (some rp) => some ((event.Resource.getD zeroResource).mergeWithPatch rp) }

/-- `Event.MergeWithJSON` from ans.go: run `json.Unmarshal(eventJSON, &event)`.
The JSON text is modelled as `Option EventPatch`: `none` is a string the
decoder rejects, which the Go code wraps with "error unmarshalling ANS event
from JSON string"; otherwise the decoded patch is applied to the receiver. -/
def Event.MergeWithJSON (event : Event) (eventJSON : Option EventPatch) : Except String Event :=
  match eventJSON with
  | none => .error "error unmarshalling ANS event from JSON string: invalid JSON"
  | some p => .ok (event.applyPatch p)

/-- An event whose only set field is the tag map `{"a": 1}`. -/
def mergeCounterEvent : Event := { zeroEvent with Tags := [("a", JVal.num 1)] }

/-- The merge JSON `{"tags": {"b": 2}}`. -/
def mergeCounterPatch : EventPatch := { emptyEventPatch with tags := some (some [("b", JVal.num 2)]) }

/-- C2 counterexample: merging `{"tags": {"b": 2}}` onto an event whose tags
are `{"a": 1}` does not overwrite the `tags` field with the JSON value
`{"b": 2}`: the existing entry `"a"` survives, so the result is
`{"a": 1, "b": 2}`. -/
theorem mergeWithJSON_overwrite_counterexample :
    (mergeCounterEvent.MergeWithJSON (some mergeCounterPatch)).toOption =
      some { mergeCounterEvent with Tags := [("a", JVal.num 1), ("b", JVal.num 2)] } ∧
    (mergeCounterEvent.MergeWithJSON (some mergeCounterPatch)).toOption ≠
      some { mergeCounterEvent with Tags := [("b", JVal.num 2)] } := by
  constructor
  · rfl
  · decide

/-- C2 (amended): for every event and well-formed merge JSON, `MergeWithJSON`
succeeds; scalar fields present in the JSON are overwritten, absent fields are
left unchanged; the `tags` map is merged entry-by-entry (JSON entries are
stored into the existing map, other existing entries are retained; a JSON
`null` resets it); a present `resource` object is merged field-by-field onto
the existing resource (onto the zero resource if it was nil), and a `null`
clears it. -/
theorem mergeWithJSON_semantics (e : Event) (p : EventPatch) (e' : Event)
    (h : e.MergeWithJSON (some p) = .ok e') :
    e'.EventType = p.eventType.getD e.EventType ∧
    e'.EventTimestamp = p.eventTimestamp.getD e.EventTimestamp ∧
    e'.Severity = p.severity.getD e.Severity ∧
    e'.Category = p.category.getD e.Category ∧
    e'.Subject = p.subject.getD e.Subject ∧
    e'.Body = p.body.getD e.Body ∧
    e'.Priority = p.priority.getD e.Priority ∧
    (p.tags = none → e'.Tags = e.Tags) ∧
    (p.tags = some none → e'.Tags = []) ∧
    (∀ ts, p.tags = some (some ts) → (ts.map Prod.fst).Nodup →
      ∀ k, lookupKey e'.Tags k =
        match lookupKey ts k with
        | some v => some v
        | none => lookupKey e.Tags k) ∧
    (p.resource = none → e'.Resource = e.Resource) ∧
    (p.resource = some none → e'.Resource = none) ∧
    (∀ rp, p.resource = some (some rp) →
      ∃ r', e'.Resource = some r' ∧
        r'.ResourceName = rp.resourceName.getD ((e.Resource.getD zeroResource).ResourceName) ∧
        r'.ResourceType = rp.resourceType.getD ((e.Resource.getD zeroResource).ResourceType) ∧
        r'.ResourceInstance =
          rp.resourceInstance.getD ((e.Resource.getD zeroResource).ResourceInstance) ∧
        (rp.tags = none → r'.Tags = (e.Resource.getD zeroResource).Tags) ∧
        (rp.tags = some none → r'.Tags = []) ∧
        (∀ ts, rp.tags = some (some ts) → (ts.map Prod.fst).Nodup →
          ∀ k, lookupKey r'.Tags k =
            match lookupKey ts k with
            | some v => some v
            | none => lookupKey (e.Resource.getD zeroResource).Tags k)) := by
  have he' : e' = e.applyPatch p := by
    simp only [Event.MergeWithJSON, Except.ok.injEq] at h
    exact h.symm
  subst he'
  refine ⟨rfl, rfl, rfl, rfl, rfl, rfl, rfl, ?_, ?_, ?_, ?_, ?_, ?_⟩
  · intro ht; simp [Event.applyPatch, ht]
  · intro ht; simp [Event.applyPatch, ht]
  · intro ts ht hnd k
    simp only [Event.applyPatch, ht]
    cases hl : lookupKey ts k with
    | none => simp [lookupKey_mergeTags_none ts k hl e.Tags]
    | some v => simp [lookupKey_mergeTags_some ts k v hnd hl e.Tags]
  · intro hr; simp [Event.applyPatch, hr]
  · intro hr; simp [Event.applyPatch, hr]
  · intro rp hr
    refine ⟨(e.Resource.getD zeroResource).mergeWithPatch rp, by simp [Event.applyPatch, hr], rfl, rfl, rfl, ?_, ?_, ?_⟩
    · intro ht; simp [Resource.mergeWithPatch, ht]
    · intro ht; simp [Resource.mergeWithPatch, ht]
    · intro ts ht hnd k
      simp only [Resource.mergeWithPatch, ht]
      cases hl : lookupKey ts k with
      | none => simp [lookupKey_mergeTags_none ts k hl]
      | some v => simp [lookupKey_mergeTags_some ts k v hnd hl]

/-- The event of the claim's example: fields A(=Subject)="A1", B(=Body)="B2". -/
def mergeWitnessEvent : Event := { zeroEvent with Subject := "A1", Body := "B2" }

/-- The merge JSON of the claim's example: only `{subject: "A99"}`. -/
def mergeWitnessPatch : EventPatch := { emptyEventPatch with subject := some "A99" }

/-- Witness for C2: merging `{subject: "A99"}` onto an event with
Subject="A1", Body="B2" gives Subject="A99" and leaves Body="B2". -/
theorem mergeWithJSON_semantics_witness :
    (mergeWitnessEvent.applyPatch mergeWitnessPatch).Subject =
      mergeWitnessPatch.subject.getD mergeWitnessEvent.Subject ∧
    (mergeWitnessEvent.applyPatch mergeWitnessPatch).Body =
      mergeWitnessPatch.body.getD mergeWitnessEvent.Body ∧
    mergeWitnessPatch.subject.getD mergeWitnessEvent.Subject = "A99" ∧
    mergeWitnessPatch.body.getD mergeWitnessEvent.Body = "B2" :=
  ⟨(mergeWithJSON_semantics mergeWitnessEvent mergeWitnessPatch
      (mergeWitnessEvent.applyPatch mergeWitnessPatch) rfl).2.2.2.2.1,
   (mergeWithJSON_semantics mergeWitnessEvent mergeWitnessPatch
      (mergeWitnessEvent.applyPatch mergeWitnessPatch) rfl).2.2.2.2.2.1,
   by decide, by decide⟩

/-- `ANS` from ans.go holds the backend URL; its `XSUAA` member (the xsuaa
token client) is an external collaborator, modelled by the `authResult`
oracle of `SendWorld`. -/
structure ANS where
  URL : String

/-- `http.StatusAccepted` from net/http. -/
def StatusAccepted : Nat := 202

/-- The fixed event path constant inside `ANS.Send`. -/
def eventPath : String := "/cf/producer/v1/resource-events"

/-- An outgoing HTTP request as `ANS.Send` builds it: method, URL, the headers
added with `Header.Add`, and the marshalled event as body. -/
structure HttpRequest where
  method : String
  url : String
  headers : List (String × String)
  body : JVal

/-- The response the transport hands back: its status code and the outcome of
`body.ReadResponseBody` on it (an external collaborator that either drains the
body to a string or fails with an I/O error). -/
structure SendResponse where
  statusCode : Nat
  bodyRead : Except String String

/-- The external collaborators `ANS.Send` consults, in the order the code
consults them: `authResult` is `XSUAA.SetAuthHeaderIfNotPresent` (on success
the `Authorization` value it stored into the fresh header, on failure its
error), `requestResult` is `http.NewRequest` (which fails on an unparsable
URL), and `doResult` is `httpClient.Do` (a transport error or a response). -/
structure SendWorld where
  authResult : Except String String
  requestResult : Except String Unit
  doResult : Except String SendResponse

/-- The errors `ANS.Send` can return: the auth provider's error returned as-is,
a request-construction error, a transport error, the formatted
unexpected-status error, or — when reading the diagnostic body also failed —
the unexpected-status text wrapped by `errors.Wrapf` around the body-read
error (which is kept as the cause). -/
inductive SendError where
  | authError (e : String)
  | requestError (e : String)
  | transportError (e : String)
  | statusError (msg : String)
  | statusBodyReadError (msg : String) (cause : String)

/-- The rendered message of a `SendError`; for the `errors.Wrapf` case the
message is the wrapping text followed by ": " and the cause's message. -/
def SendError.message : SendError → String
  | .authError e => e
  | .requestError e => e
  | .transportError e => e
  | .statusError msg => msg
  | .statusBodyReadError msg cause => msg ++ (": " ++ cause)

/-- The wrapped cause of a `SendError` (`errors.Cause`), when there is one. -/
def SendError.cause : SendError → Option String
  | .statusBodyReadError _ cause => some cause
  | _ => none

/-- The `fmt.Errorf` text built when the response status is not 202:
`ANS http request to '<url>' failed. Did not get expected status code 202;
instead got <code>`. -/
def statusCodeErrorMessage (entireUrl : String) (code : Nat) : String :=
  "ANS http request to \x27" ++ entireUrl ++
    ("\x27 failed. Did not get expected status code " ++
      (toString StatusAccepted ++ ("; instead got " ++ toString code)))

/-- What one call of `ANS.Send` did: the returned value (`.ok ()` is Go's
`nil`) and the request handed to `httpClient.Do`, if any. -/
structure SendOutcome where
  result : Except SendError Unit
  issuedRequest : Option HttpRequest

/-- `ANS.Send` from ans.go, step for step: marshal the event (total over this
model's value domain), ask the auth provider to fill the `Authorization`
header, build the POST to `URL ++ eventPath` with the auth and Content-Type
headers and the marshalled body, issue it, and demand status 202 — on any
other status read the response body and fold it (or the failure to read it)
into the returned error. -/
def ANS.Send (ans : ANS) (event : Event) (w : SendWorld) : SendOutcome :=
  let requestBody := marshalEvent event
  match w.authResult with
  | .error err => { result := .error (.authError err), issuedRequest := none }
  | .ok authHeaderValue =>
    let entireUrl := ans.URL ++ eventPath
    match w.requestResult with
    | .error err => { result := .error (.requestError err), issuedRequest := none }
    | .ok _ =>
      let request : HttpRequest :=
        { method := "POST", url := entireUrl,
          headers := [(authHeaderKey, authHeaderValue), ("Content-Type", "application/json")],
          body := requestBody }
      match w.doResult with
      | .error err => { result := .error (.transportError err), issuedRequest := some request }
      | .ok response =>
        if response.statusCode ≠ StatusAccepted then
          let statusCodeError := statusCodeErrorMessage entireUrl response.statusCode
          match response.bodyRead with
          | .error err =>
            { result := .error (.statusBodyReadError
                (statusCodeError ++ "; reading response body failed") err),
              issuedRequest := some request }
          | .ok responseBody =>
            { result := .error (.statusError
                (statusCodeError ++ ("; response body: " ++ responseBody))),
              issuedRequest := some request }
        else
          { result := .ok (), issuedRequest := some request }

/-- C1: whenever the HTTP POST receives a response, `Send` returns nil exactly
when the status code is 202; any other status makes it return an error. -/
theorem send_success_iff_accepted (ans : ANS) (event : Event) (w : SendWorld)
    (token : String) (response : SendResponse)
    (hAuth : w.authResult = .ok token) (hReq : w.requestResult = .ok ())
    (hDo : w.doResult = .ok response) :
    ((ans.Send event w).result = .ok () ↔ response.statusCode = 202) ∧
    (response.statusCode ≠ 202 → ∃ err, (ans.Send event w).result = .error err) := by
  constructor
  · constructor
    · intro hok
      by_contra hne
      simp only [ANS.Send, hAuth, hReq, hDo, if_neg, hne, StatusAccepted, ne_eq,
        not_false_iff, if_true] at hok
      rcases hb : response.bodyRead with e | b <;> simp [hb] at hok
    · intro h202
      simp [ANS.Send, hAuth, hReq, hDo, StatusAccepted, h202]
  · intro hne
    rcases hb : response.bodyRead with e | b
    · exact ⟨SendError.statusBodyReadError
        (statusCodeErrorMessage (ans.URL ++ eventPath) response.statusCode ++
          "; reading response body failed") e,
        by simp [ANS.Send, hAuth, hReq, hDo, StatusAccepted, hne, hb]⟩
    · exact ⟨SendError.statusError
        (statusCodeErrorMessage (ans.URL ++ eventPath) response.statusCode ++
          ("; response body: " ++ b)),
        by simp [ANS.Send, hAuth, hReq, hDo, StatusAccepted, hne, hb]⟩

/-- Witness for C1: a world whose transport answers 202 makes `Send` succeed. -/
theorem send_success_iff_accepted_witness :
    ((ANS.mk "https://ans.example").Send zeroEvent
        ⟨.ok "Bearer token", .ok (), .ok ⟨202, .ok ""⟩⟩).result = .ok () ↔
      (SendResponse.mk 202 (.ok "")).statusCode = 202 :=
  (send_success_iff_accepted (ANS.mk "https://ans.example") zeroEvent
      ⟨.ok "Bearer token", .ok (), .ok ⟨202, .ok ""⟩⟩ "Bearer token" ⟨202, .ok ""⟩
      rfl rfl rfl).1

/-- C5: when the auth-header provider fails, `Send` returns that error and no
HTTP request is constructed or issued. -/
theorem send_auth_failure_no_request (ans : ANS) (event : Event) (w : SendWorld)
    (e : String) (h : w.authResult = .error e) :
    (ans.Send event w).result = .error (.authError e) ∧
    (ans.Send event w).issuedRequest = none := by
  constructor <;> simp [ANS.Send, h]

/-- Witness for C5: a failing auth provider short-circuits `Send`. -/
theorem send_auth_failure_no_request_witness :
    ((ANS.mk "https://ans.example").Send zeroEvent
        ⟨.error "token fetch failed", .ok (), .ok ⟨202, .ok ""⟩⟩).result =
      .error (.authError "token fetch failed") ∧
    ((ANS.mk "https://ans.example").Send zeroEvent
        ⟨.error "token fetch failed", .ok (), .ok ⟨202, .ok ""⟩⟩).issuedRequest = none :=
  send_auth_failure_no_request (ANS.mk "https://ans.example") zeroEvent
    ⟨.error "token fetch failed", .ok (), .ok ⟨202, .ok ""⟩⟩ "token fetch failed" rfl

/-- C7: every `Send` call that constructs its request issues an HTTP POST to
the base URL concatenated with the fixed event path, with the Authorization
header from the auth provider, Content-Type application/json, and the JSON
serialization of the event as body. -/
theorem send_request_shape (ans : ANS) (event : Event) (w : SendWorld)
    (token : String) (hAuth : w.authResult = .ok token) (hReq : w.requestResult = .ok ()) :
    (ans.Send event w).issuedRequest = some
      { method := "POST", url := ans.URL ++ eventPath,
        headers := [(authHeaderKey, token), ("Content-Type", "application/json")],
        body := marshalEvent event } := by
  rcases hd : w.doResult with e | response
  · simp [ANS.Send, hAuth, hReq, hd]
  · rcases h202 : decide (response.statusCode = StatusAccepted) with _ | _
    · rcases hb : response.bodyRead with e | b <;>
        simp_all [ANS.Send, hAuth, hReq, hd, hb]
    · simp_all [ANS.Send, hAuth, hReq, hd]

/-- Witness for C7: with a successful auth provider the issued request has the
expected method, URL, headers and body. -/
theorem send_request_shape_witness :
    ((ANS.mk "https://ans.example").Send zeroEvent
        ⟨.ok "Bearer token", .ok (), .ok ⟨202, .ok ""⟩⟩).issuedRequest = some
      { method := "POST", url := (ANS.mk "https://ans.example").URL ++ eventPath,
        headers := [(authHeaderKey, "Bearer token"), ("Content-Type", "application/json")],
        body := marshalEvent zeroEvent } :=
  send_request_shape (ANS.mk "https://ans.example") zeroEvent
    ⟨.ok "Bearer token", .ok (), .ok ⟨202, .ok ""⟩⟩ "Bearer token" rfl rfl

theorem containsStr_statusCodeErrorMessage_url (entireUrl : String) (code : Nat) :
    containsStr (statusCodeErrorMessage entireUrl code) entireUrl := by
  unfold statusCodeErrorMessage
  exact containsStr_append_left _ (containsStr_append_right _ (containsStr_self entireUrl))

theorem containsStr_statusCodeErrorMessage_202 (entireUrl : String) (code : Nat) :
    containsStr (statusCodeErrorMessage entireUrl code) "202" := by
  unfold statusCodeErrorMessage
  refine containsStr_append_right _ (containsStr_append_right _ ?_)
  exact containsStr_append_left _ (containsStr_self (toString StatusAccepted))

theorem containsStr_statusCodeErrorMessage_code (entireUrl : String) (code : Nat) :
    containsStr (statusCodeErrorMessage entireUrl code) (toString code) := by
  unfold statusCodeErrorMessage
  refine containsStr_append_right _ (containsStr_append_right _ (containsStr_append_right _
    (containsStr_append_right _ (containsStr_self (toString code)))))

/-- C4: on a non-202 response, if the body read succeeds the error message
contains the full request URL, the expected status 202, the actual status and
the body text; if the body read fails it contains the URL, both statuses and a
note that reading the body failed, with the body-read error kept as the
wrapped cause. -/
theorem send_status_error_message (ans : ANS) (event : Event) (w : SendWorld)
    (token : String) (response : SendResponse)
    (hAuth : w.authResult = .ok token) (hReq : w.requestResult = .ok ())
    (hDo : w.doResult = .ok response) (hStatus : response.statusCode ≠ 202) :
    (∀ bodyText, response.bodyRead = .ok bodyText →
      ∃ err, (ans.Send event w).result = .error err ∧
        containsStr err.message (ans.URL ++ eventPath) ∧
        containsStr err.message "202" ∧
        containsStr err.message (toString response.statusCode) ∧
        containsStr err.message bodyText) ∧
    (∀ e, response.bodyRead = .error e →
      ∃ err, (ans.Send event w).result = .error err ∧
        containsStr err.message (ans.URL ++ eventPath) ∧
        containsStr err.message "202" ∧
        containsStr err.message (toString response.statusCode) ∧
        containsStr err.message "reading response body failed" ∧
        err.cause = some e) := by
  constructor
  · intro bodyText hb
    refine ⟨SendError.statusError
      (statusCodeErrorMessage (ans.URL ++ eventPath) response.statusCode ++
        ("; response body: " ++ bodyText)), ?_, ?_, ?_, ?_, ?_⟩
    · simp [ANS.Send, hAuth, hReq, hDo, StatusAccepted, hStatus, hb]
    · exact containsStr_append_left _ (containsStr_statusCodeErrorMessage_url _ _)
    · exact containsStr_append_left _ (containsStr_statusCodeErrorMessage_202 _ _)
    · exact containsStr_append_left _ (containsStr_statusCodeErrorMessage_code _ _)
    · exact containsStr_append_right _ (containsStr_append_right _ (containsStr_self bodyText))
  · intro e hb
    refine ⟨SendError.statusBodyReadError
      (statusCodeErrorMessage (ans.URL ++ eventPath) response.statusCode ++
        "; reading response body failed") e, ?_, ?_, ?_, ?_, ?_, rfl⟩
    · simp [ANS.Send, hAuth, hReq, hDo, StatusAccepted, hStatus, hb]
    · exact containsStr_append_left _
        (containsStr_append_left _ (containsStr_statusCodeErrorMessage_url _ _))
    · exact containsStr_append_left _
        (containsStr_append_left _ (containsStr_statusCodeErrorMessage_202 _ _))
    · exact containsStr_append_left _
        (containsStr_append_left _ (containsStr_statusCodeErrorMessage_code _ _))
    · have hsplit : ("; reading response body failed" : String) =
          "; " ++ "reading response body failed" := rfl
      rw [hsplit]
      exact containsStr_append_left _
        (containsStr_append_right _
          (containsStr_append_right _ (containsStr_self "reading response body failed")))

/-- Witness for C4: a mock endpoint answering 500 with body "server error"
produces an error whose message contains the URL, "202", "500" and
"server error". -/
theorem send_status_error_message_witness :
    (500 : Nat) ≠ 202 ∧
    ∃ err, ((ANS.mk "https://ans.example").Send zeroEvent
        ⟨.ok "Bearer token", .ok (), .ok ⟨500, .ok "server error"⟩⟩).result = .error err ∧
      containsStr err.message ((ANS.mk "https://ans.example").URL ++ eventPath) ∧
      containsStr err.message "202" ∧
      containsStr err.message (toString (500 : Nat)) ∧
      containsStr err.message "server error" :=
  ⟨by decide,
   (send_status_error_message (ANS.mk "https://ans.example") zeroEvent
      ⟨.ok "Bearer token", .ok (), .ok ⟨500, .ok "server error"⟩⟩ "Bearer token"
      ⟨500, .ok "server error"⟩ rfl rfl rfl (by decide)).1 "server error" rfl⟩
